import Mathlib

/-!
Shallow embedding of the deployment-readiness checker of
src/cli/check-deployment.ts (zkwasm-dapp-starter).

The checker runs three checks in sequence against a filesystem and a
remote catalog, accumulating warnings, errors and discovered facts in a
single report record, then derives a pass/fail verdict.

Modelling choices:
  * bytes are Nat values below 256; file contents are List Nat;
  * the filesystem is a structure of two functions: an existence probe
    and a file reader whose Except.error case stands for a thrown
    read/hash exception;
  * the single outbound network request is an oracle value FetchOutcome
    describing what the fetch of the catalog endpoint would yield:
    a thrown exception, a non-2xx HTTP status, or a parsed JSON body;
  * checkZkWasmImage returns, besides the updated report, the number of
    network calls it performed, so that the no-network-call claims are
    statable;
  * the MD5 digest of crypto.createHash is implemented in full below on
    Nat arithmetic modulo 2^32.
-/

namespace ZkWasmCheck

/-! ### MD5, as used by crypto.createHash applied to the md5 algorithm -/

def M32 : Nat := 4294967296

def M64 : Nat := 18446744073709551616

def mask32 : Nat := 4294967295

def add32 (a b : Nat) : Nat := (a + b) % M32

def rotl32 (x s : Nat) : Nat := ((x <<< s) ||| (x >>> (32 - s))) % M32

def md5K : List Nat :=
  [3614090360, 3905402710, 606105819, 3250441966, 4118548399, 1200080426,
   2821735955, 4249261313, 1770035416, 2336552879, 4294925233, 2304563134,
   1804603682, 4254626195, 2792965006, 1236535329, 4129170786, 3225465664,
   643717713, 3921069994, 3593408605, 38016083, 3634488961, 3889429448,
   568446438, 3275163606, 4107603335, 1163531501, 2850285829, 4243563512,
   1735328473, 2368359562, 4294588738, 2272392833, 1839030562, 4259657740,
   2763975236, 1272893353, 4139469664, 3200236656, 681279174, 3936430074,
   3572445317, 76029189, 3654602809, 3873151461, 530742520, 3299628645,
   4096336452, 1126891415, 2878612391, 4237533241, 1700485571, 2399980690,
   4293915773, 2240044497, 1873313359, 4264355552, 2734768916, 1309151649,
   4149444226, 3174756917, 718787259, 3951481745]

def md5S : List Nat :=
  [7, 12, 17, 22, 7, 12, 17, 22, 7, 12, 17, 22, 7, 12, 17, 22,
   5, 9, 14, 20, 5, 9, 14, 20, 5, 9, 14, 20, 5, 9, 14, 20,
   4, 11, 16, 23, 4, 11, 16, 23, 4, 11, 16, 23, 4, 11, 16, 23,
   6, 10, 15, 21, 6, 10, 15, 21, 6, 10, 15, 21, 6, 10, 15, 21]

def md5F (b c d : Nat) : Nat := (b &&& c) ||| ((b ^^^ mask32) &&& d)

def md5G (b c d : Nat) : Nat := (d &&& b) ||| ((d ^^^ mask32) &&& c)

def md5H (b c d : Nat) : Nat := b ^^^ c ^^^ d

def md5I (b c d : Nat) : Nat := c ^^^ (b ||| (d ^^^ mask32))

/-- One of the 64 MD5 rounds: `m` looks up the 16 message words of the
current chunk, `i` is the round index. -/
def md5Mix (m : Nat → Nat) (st : Nat × Nat × Nat × Nat) (i : Nat) :
    Nat × Nat × Nat × Nat :=
  let a := st.1
  let b := st.2.1
  let c := st.2.2.1
  let d := st.2.2.2
  let fg : Nat × Nat :=
    if i < 16 then (md5F b c d, i)
    else if i < 32 then (md5G b c d, (5 * i + 1) % 16)
    else if i < 48 then (md5H b c d, (3 * i + 5) % 16)
    else (md5I b c d, (7 * i) % 16)
  let tmp := add32 (add32 (add32 a fg.1) (md5K.getD i 0)) (m fg.2)
  (d, add32 b (rotl32 tmp (md5S.getD i 0)), b, c)

/-- Process one padded 64-byte chunk, little-endian words. -/
def md5Chunk (st : Nat × Nat × Nat × Nat) (chunk : List Nat) :
    Nat × Nat × Nat × Nat :=
  let m : Nat → Nat := fun g =>
    chunk.getD (4 * g) 0 + 256 * chunk.getD (4 * g + 1) 0 +
      65536 * chunk.getD (4 * g + 2) 0 + 16777216 * chunk.getD (4 * g + 3) 0
  let r := (List.range 64).foldl (md5Mix m) st
  (add32 st.1 r.1, add32 st.2.1 r.2.1, add32 st.2.2.1 r.2.2.1,
    add32 st.2.2.2 r.2.2.2)

/-- MD5 padding: a 0x80 byte, zeros to 56 mod 64, then the bit length as
eight little-endian bytes. -/
def md5Pad (msg : List Nat) : List Nat :=
  let len := msg.length
  let zeros := (120 - ((len + 1) % 64)) % 64
  let bitLen := (8 * len) % M64
  msg ++ [128] ++ List.replicate zeros 0 ++
    (List.range 8).map (fun i => (bitLen >>> (8 * i)) % 256)

/-- Split into 64-byte chunks; the fuel argument is only a structural
termination measure and is always at least the list length. -/
def chunks64Go : Nat → List Nat → List (List Nat)
  | 0, _ => []
  | _ + 1, [] => []
  | fuel + 1, l => l.take 64 :: chunks64Go fuel (l.drop 64)

def chunks64 (l : List Nat) : List (List Nat) := chunks64Go l.length l

def md5Init : Nat × Nat × Nat × Nat :=
  (1732584193, 4023233417, 2562383102, 271733878)

def le4 (x : Nat) : List Nat :=
  [x % 256, (x >>> 8) % 256, (x >>> 16) % 256, (x >>> 24) % 256]

def md5Bytes (msg : List Nat) : List Nat :=
  let st := (chunks64 (md5Pad msg)).foldl md5Chunk md5Init
  le4 st.1 ++ le4 st.2.1 ++ le4 st.2.2.1 ++ le4 st.2.2.2

def hexDigitU (n : Nat) : Char :=
  if n < 10 then Char.ofNat (48 + n) else Char.ofNat (55 + n)

def byteHexU (b : Nat) : List Char :=
  [hexDigitU ((b / 16) % 16), hexDigitU (b % 16)]

/-- The digest rendered as an uppercase hexadecimal string, matching
crypto digest hex followed by toUpperCase in the source. -/
def md5HexUpper (msg : List Nat) : String :=
  String.mk (((md5Bytes msg).map byteHexU).flatten)

/-- The reference digest of the three-byte content 0x00 0x01 0x02,
computed independently of this development. -/
def refDigest012 : String := "B95F67F61EBB03619622D798F45FC2D3"

/-! ### Data model (the CheckResults and ZkWasmImageInfo interfaces) -/

/-- The info field of CheckResults: exactly the four optional fields the
source interface declares. -/
structure Info where
  md5Hash : Option String := none
  wasmSize : Option Nat := none
  imageHash : Option String := none
  imageChecksum : Option String := none
deriving DecidableEq, Repr

structure CheckResults where
  success : Bool
  warnings : List String
  errors : List String
  info : Info
deriving DecidableEq, Repr

/-- One record of the remote catalog response. Optional fields model
fields that may be absent in the JSON; a checksum of some empty string
models a present but falsy (empty) checksum. -/
structure ZkWasmImageInfo where
  checksum : Option String := none
  md5 : String
  name : Option String := none
  description : Option String := none
  circuit_size : Option Nat := none
deriving DecidableEq, Repr

/-- The filesystem as seen through fs-extra: an existence probe and a
reader whose error case stands for a thrown read (or hashing) exception. -/
structure FS where
  pathExists : String → Bool
  readFile : String → Except String (List Nat)

/-- What the single fetch of the catalog endpoint would yield: a thrown
exception (network failure or JSON parse failure), a non-2xx HTTP
status, or a parsed body whose result field is either not an array
(none) or an array of records (some). -/
inductive FetchOutcome where
  | throws (msg : String)
  | httpError (status : Nat) (statusText : String)
  | ok (result : Option (List ZkWasmImageInfo))
deriving DecidableEq, Repr

/-! ### Path constants and message strings of the source -/

def artifactsDir : String := "./build-artifacts"

/-- path.join of ./build-artifacts and application: node normalizes the
leading dot-slash away. -/
def applicationDir : String := "build-artifacts/application"

def wasmFileName : String := "application_bg.wasm"

def dtsFileName : String := "application_bg.wasm.d.ts"

def requiredFiles : List String := [wasmFileName, dtsFileName]

def joinPath (a b : String) : String := a ++ "/" ++ b

/-- The literal path used by checkWasmIntegrity (not produced by
path.join, hence it keeps the leading dot-slash). -/
def wasmPath : String := "./build-artifacts/application/application_bg.wasm"

def artifactsDirMissingMsg : String := "build-artifacts directory not found"

def applicationDirMissingMsg : String := "build-artifacts/application directory not found"

def requiredFileMissingPre : String := "Required file missing: "

def requiredFileMissingMsg (filePath : String) : String :=
  requiredFileMissingPre ++ filePath

def wasmNotFoundMsg : String := "WASM file not found for integrity check"

def wasmHashFailPre : String := "Failed to calculate WASM hash: "

def wasmHashFailMsg (msg : String) : String := wasmHashFailPre ++ msg

def hubQueryFailPre : String := "Failed to query zkWasm hub: "

def hubQueryFailMsg (msg : String) : String := hubQueryFailPre ++ msg

def httpPre : String := "HTTP "

def httpSep : String := ": "

def httpMsg (status : Nat) (statusText : String) : String :=
  httpPre ++ toString status ++ httpSep ++ statusText

def noMd5Msg : String := "No WASM MD5 hash available for image check"

def imageNotFoundPre : String := "Image not found: "

def imageNotFoundSuf : String :=
  ". Please publish the image first using the publish.sh script in your local environment or use zkwasm publish command."

def imageNotFoundMsg (imageHash : String) : String :=
  imageNotFoundPre ++ imageHash ++ imageNotFoundSuf

def hubCheckFailPre : String := "Failed to check zkWasm hub: "

def hubCheckFailMsg (msg : String) : String := hubCheckFailPre ++ msg

/-! ### The three checks and the aggregator -/

def pushError (results : CheckResults) (e : String) : CheckResults :=
  { results with errors := results.errors ++ [e] }

/-- The body of the for loop of checkBuildArtifacts: push an error when
the required file is missing, otherwise leave the report unchanged
(verbose size printing writes nothing into the report). -/
def cbaStep (fs : FS) (r : CheckResults) (file : String) : CheckResults :=
  let filePath := joinPath applicationDir file
  if !(fs.pathExists filePath) then pushError r (requiredFileMissingMsg filePath)
  else r

/-- checkBuildArtifacts: directory probes with early return, then one
error per missing required file. -/
def checkBuildArtifacts (fs : FS) (results : CheckResults) : CheckResults :=
  if !(fs.pathExists artifactsDir) then pushError results artifactsDirMissingMsg
  else if !(fs.pathExists applicationDir) then pushError results applicationDirMissingMsg
  else requiredFiles.foldl (cbaStep fs) results

/-- checkWasmIntegrity: existence probe, then a try block around the
read and digest; a thrown read/hash error becomes one error string. -/
def checkWasmIntegrity (fs : FS) (results : CheckResults) : CheckResults :=
  if !(fs.pathExists wasmPath) then pushError results wasmNotFoundMsg
  else
    match fs.readFile wasmPath with
    | Except.ok wasmBuffer =>
        { results with info := { results.info with
            md5Hash := some (md5HexUpper wasmBuffer),
            wasmSize := some wasmBuffer.length } }
    | Except.error msg => pushError results (wasmHashFailMsg msg)

/-- queryZkWasmImage: one fetch; a non-ok response throws an HTTP error
that the same try block rewraps; a result that is not a nonempty array
yields null; otherwise the first record is returned. An Except.error
models the rethrown, wrapped exception. -/
def queryZkWasmImage : FetchOutcome → Except String (Option ZkWasmImageInfo)
  | FetchOutcome.throws msg => Except.error (hubQueryFailMsg msg)
  | FetchOutcome.httpError status statusText =>
      Except.error (hubQueryFailMsg (httpMsg status statusText))
  | FetchOutcome.ok none => Except.ok none
  | FetchOutcome.ok (some []) => Except.ok none
  | FetchOutcome.ok (some (img :: _)) => Except.ok (some img)

/-- The truthiness test of the source: imageInfo is present and its
checksum field is present and nonempty. -/
def checksumFound : Option ZkWasmImageInfo → Bool
  | none => false
  | some img =>
    match img.checksum with
    | none => false
    | some cs => !(cs == "")

/-- checkZkWasmImage: returns the updated report and how many network
calls were made (0 when no digest is available, 1 otherwise). -/
def checkZkWasmImage (net : FetchOutcome) (results : CheckResults) :
    CheckResults × Nat :=
  match results.info.md5Hash with
  | none => (pushError results noMd5Msg, 0)
  | some imageHash =>
    match queryZkWasmImage net with
    | Except.error msg => (pushError results (hubCheckFailMsg msg), 1)
    | Except.ok imageInfo =>
      if checksumFound imageInfo then
        ({ results with info := { results.info with
            imageHash := some imageHash,
            imageChecksum := imageInfo.bind (fun img => img.checksum) } }, 1)
      else (pushError results (imageNotFoundMsg imageHash), 1)

def initResults : CheckResults :=
  { success := true, warnings := [], errors := [], info := {} }

/-- checkDeployment: the three checks in strict sequence on one report,
then the success flag is cleared when any errors were recorded. The
second component counts network calls performed by the run. -/
def checkDeployment (fs : FS) (net : FetchOutcome) : CheckResults × Nat :=
  let r1 := checkBuildArtifacts fs initResults
  let r2 := checkWasmIntegrity fs r1
  let p := checkZkWasmImage net r2
  let r3 := if p.1.errors.length > 0 then { p.1 with success := false } else p.1
  (r3, p.2)

/-- The passed-checks count printed in the summary: 3 minus the number
of recorded errors, as a JS number (may be negative). -/
def totalPassed (results : CheckResults) : Int :=
  3 - (results.errors.length : Int)

/-! ### A decidable substring test (for the claims about error texts) -/

def isPrefixChars : List Char → List Char → Bool
  | [], _ => true
  | _ :: _, [] => false
  | n :: ns, h :: hs => (n == h) && isPrefixChars ns hs

def hasSubChars (needle : List Char) : List Char → Bool
  | [] => isPrefixChars needle []
  | h :: hs => isPrefixChars needle (h :: hs) || hasSubChars needle hs

/-- The text sub occurs (contiguously) somewhere in hay. -/
def strContains (hay sub : String) : Bool := hasSubChars sub.data hay.data

def notFoundText : String := "not found"

/-! ### Concrete fixtures used in witnesses and counterexamples -/

def ioErrMsg : String := "ENOENT"

def netErrMsg : String := "ECONNREFUSED"

def content012 : List Nat := [0, 1, 2]

/-- A filesystem in which nothing exists. -/
def fsEmpty : FS := ⟨fun _ => false, fun _ => Except.error ioErrMsg⟩

/-- Only the two directories exist; both required files are missing. -/
def fsDirsOnly : FS :=
  ⟨fun p => p == artifactsDir || p == applicationDir, fun _ => Except.error ioErrMsg⟩

/-- Only the wasm artifact exists, with content 0x00 0x01 0x02. -/
def fsWasmOnly : FS :=
  ⟨fun p => p == wasmPath,
   fun p => if p == wasmPath then Except.ok content012 else Except.error ioErrMsg⟩

def goodPaths : List String :=
  [artifactsDir, applicationDir, joinPath applicationDir wasmFileName,
   joinPath applicationDir dtsFileName, wasmPath]

/-- Both directories and both required files exist; the artifact content
is 0x00 0x01 0x02. -/
def fsGood : FS :=
  ⟨fun p => goodPaths.contains p,
   fun p => if p == wasmPath then Except.ok content012 else Except.error ioErrMsg⟩

/-- The artifact exists but reading it throws. -/
def fsReadErr : FS := ⟨fun p => p == wasmPath, fun _ => Except.error ioErrMsg⟩

def csAbc : String := "abc"

def imgNameA : String := "alpha"

def imgNameB : String := "beta"

/-- Two catalog records that differ only in their display fields. -/
def imgA : ZkWasmImageInfo :=
  { checksum := some csAbc, md5 := csAbc, name := some imgNameA, circuit_size := some 22 }

def imgB : ZkWasmImageInfo :=
  { checksum := some csAbc, md5 := csAbc, name := some imgNameB, circuit_size := some 23 }

def netOkNone : FetchOutcome := FetchOutcome.ok none

def netOkEmpty : FetchOutcome := FetchOutcome.ok (some [])

def netThrowsDown : FetchOutcome := FetchOutcome.throws netErrMsg

def netFoundA : FetchOutcome := FetchOutcome.ok (some [imgA])

def netFoundB : FetchOutcome := FetchOutcome.ok (some [imgB])

/-- A report that already carries a digest, as left by a successful
integrity check. -/
def rMd5 : CheckResults :=
  { success := true, warnings := [], errors := [], info := { md5Hash := some csAbc } }

/-! ### Helper lemmas -/

theorem isPrefixChars_append : ∀ (n s t : List Char),
    isPrefixChars n s = true → isPrefixChars n (s ++ t) = true
  | [], _, _, _ => rfl
  | _ :: _, [], _, h => by simp [isPrefixChars] at h
  | a :: ns, b :: hs, t, h => by
      simp only [isPrefixChars, Bool.and_eq_true] at h
      simp only [List.cons_append, isPrefixChars, Bool.and_eq_true]
      exact ⟨h.1, isPrefixChars_append ns hs t h.2⟩

theorem hasSubChars_nil_needle : ∀ (t : List Char), hasSubChars [] t = true
  | [] => rfl
  | _ :: cs => by
      simp only [hasSubChars, isPrefixChars, Bool.true_or]

theorem hasSubChars_append (n : List Char) : ∀ (s t : List Char),
    hasSubChars n s = true → hasSubChars n (s ++ t) = true
  | [], t, h => by
      cases n with
      | nil => exact hasSubChars_nil_needle t
      | cons a ns => simp [hasSubChars, isPrefixChars] at h
  | c :: cs, t, h => by
      simp only [hasSubChars, Bool.or_eq_true] at h
      simp only [List.cons_append, hasSubChars, Bool.or_eq_true]
      cases h with
      | inl h => exact Or.inl (isPrefixChars_append n (c :: cs) t h)
      | inr h => exact Or.inr (hasSubChars_append n cs t h)

theorem strContains_of_prefix (pre rest sub : String)
    (h : strContains pre sub = true) : strContains (pre ++ rest) sub = true := by
  unfold strContains at h ⊢
  rw [String.data_append]
  exact hasSubChars_append sub.data pre.data rest.data h

/-- The not-found error message always contains the text not found,
whatever the digest spliced into it. -/
theorem imageNotFoundMsg_contains (imageHash : String) :
    strContains (imageNotFoundMsg imageHash) notFoundText = true := by
  unfold imageNotFoundMsg
  exact strContains_of_prefix imageNotFoundPre (imageHash ++ imageNotFoundSuf)
    notFoundText (by decide)

/-- The error strings the presence check produces for the missing ones
among the given files. -/
def missingFileErrors (fs : FS) (files : List String) : List String :=
  (files.filter (fun f => !(fs.pathExists (joinPath applicationDir f)))).map
    (fun f => requiredFileMissingMsg (joinPath applicationDir f))

theorem cba_foldl_eq (fs : FS) : ∀ (files : List String) (r : CheckResults),
    files.foldl (cbaStep fs) r = { r with errors := r.errors ++ missingFileErrors fs files } := by
  intro files
  induction files with
  | nil => intro r; simp [missingFileErrors]
  | cons a as ih =>
      intro r
      simp only [List.foldl_cons, missingFileErrors, List.filter_cons]
      cases h : fs.pathExists (joinPath applicationDir a) with
      | true => simpa [cbaStep, h, missingFileErrors] using ih r
      | false =>
          have h2 := ih (pushError r (requiredFileMissingMsg (joinPath applicationDir a)))
          simp only [pushError] at h2
          simp only [cbaStep, h, Bool.not_false, if_pos, missingFileErrors] at h2 ⊢
          simp [pushError, h2, List.append_assoc]

/-- checkBuildArtifacts only appends error strings to the report. -/
theorem cba_shape (fs : FS) (r : CheckResults) :
    ∃ es, checkBuildArtifacts fs r = { r with errors := r.errors ++ es } := by
  unfold checkBuildArtifacts
  cases h1 : fs.pathExists artifactsDir with
  | false => exact ⟨[artifactsDirMissingMsg], by simp [pushError]⟩
  | true =>
      cases h2 : fs.pathExists applicationDir with
      | false => exact ⟨[applicationDirMissingMsg], by simp [pushError]⟩
      | true => exact ⟨missingFileErrors fs requiredFiles, by simp [cba_foldl_eq fs requiredFiles r]⟩

/-- checkWasmIntegrity only appends error strings and rewrites info. -/
theorem cwi_shape (fs : FS) (r : CheckResults) :
    ∃ es i, checkWasmIntegrity fs r = { r with errors := r.errors ++ es, info := i } := by
  unfold checkWasmIntegrity
  cases h : fs.pathExists wasmPath with
  | false => exact ⟨[wasmNotFoundMsg], r.info, by simp [pushError]⟩
  | true =>
      cases hr : fs.readFile wasmPath with
      | ok content =>
          refine ⟨[], { r.info with md5Hash := some (md5HexUpper content), wasmSize := some content.length }, ?_⟩
          simp
      | error msg => exact ⟨[wasmHashFailMsg msg], r.info, by simp [pushError]⟩

/-- checkZkWasmImage only appends error strings and rewrites info. -/
theorem czi_shape (net : FetchOutcome) (r : CheckResults) :
    ∃ es i, (checkZkWasmImage net r).1 = { r with errors := r.errors ++ es, info := i } := by
  unfold checkZkWasmImage
  cases hm : r.info.md5Hash with
  | none => exact ⟨[noMd5Msg], r.info, by simp [pushError]⟩
  | some imageHash =>
      cases hq : queryZkWasmImage net with
      | error msg => exact ⟨[hubCheckFailMsg msg], r.info, by simp [pushError]⟩
      | ok imageInfo =>
          cases hf : checksumFound imageInfo with
          | true =>
              refine ⟨[], { r.info with imageHash := some imageHash, imageChecksum := imageInfo.bind (fun img => img.checksum) }, ?_⟩
              simp [hf]
          | false => exact ⟨[imageNotFoundMsg imageHash], r.info, by simp [hf, pushError]⟩

/-- The report reaching the summary always has the initial success flag
and empty warnings: no check touches either field. -/
theorem pipeline_fields (fs : FS) (net : FetchOutcome) :
    (checkZkWasmImage net (checkWasmIntegrity fs (checkBuildArtifacts fs initResults))).1.success = true ∧
    (checkZkWasmImage net (checkWasmIntegrity fs (checkBuildArtifacts fs initResults))).1.warnings = [] := by
  obtain ⟨es1, h1⟩ := cba_shape fs initResults
  obtain ⟨es2, i2, h2⟩ := cwi_shape fs (checkBuildArtifacts fs initResults)
  obtain ⟨es3, i3, h3⟩ := czi_shape net (checkWasmIntegrity fs (checkBuildArtifacts fs initResults))
  rw [h3, h2, h1]
  simp [initResults]

/-- The returned report is the pipelined report, with success cleared
when errors were recorded (definitional restatement of checkDeployment). -/
theorem cd_fst (fs : FS) (net : FetchOutcome) :
    (checkDeployment fs net).1 =
      (if ((checkZkWasmImage net (checkWasmIntegrity fs (checkBuildArtifacts fs initResults))).1).errors.length > 0
       then { ((checkZkWasmImage net (checkWasmIntegrity fs (checkBuildArtifacts fs initResults))).1) with success := false }
       else ((checkZkWasmImage net (checkWasmIntegrity fs (checkBuildArtifacts fs initResults))).1)) := rfl

theorem cd_snd (fs : FS) (net : FetchOutcome) :
    (checkDeployment fs net).2 =
      (checkZkWasmImage net (checkWasmIntegrity fs (checkBuildArtifacts fs initResults))).2 := rfl

/-- checkWasmIntegrity on a readable artifact: digest and size recorded,
nothing else changed. -/
theorem cwi_ok_eq (fs : FS) (r : CheckResults) (content : List Nat)
    (hex : fs.pathExists wasmPath = true) (hrd : fs.readFile wasmPath = Except.ok content) :
    checkWasmIntegrity fs r = { r with info := { r.info with md5Hash := some (md5HexUpper content), wasmSize := some content.length } } := by
  simp [checkWasmIntegrity, hex, hrd]

/-- checkZkWasmImage never touches the digest or size fields. -/
theorem czi_info_pres (net : FetchOutcome) (r : CheckResults) :
    ((checkZkWasmImage net r).1).info.md5Hash = r.info.md5Hash ∧
    ((checkZkWasmImage net r).1).info.wasmSize = r.info.wasmSize := by
  unfold checkZkWasmImage
  cases hm : r.info.md5Hash with
  | none => simp [pushError, hm]
  | some ih =>
      cases hq : queryZkWasmImage net with
      | error m => simp [pushError, hm]
      | ok ii =>
          cases hf : checksumFound ii with
          | true => simp [hf, hm]
          | false => simp [hf, pushError, hm]

/-! ### The claims -/

/-- C1: in every run of checkDeployment, if the integrity check left
info.md5Hash unpopulated (for any reason), the catalog check appends
exactly the single error No WASM MD5 hash available for image check and
performs zero network calls, and the whole run performs zero network
calls. -/
theorem C1_no_digest_means_error_and_no_network (fs : FS) (net : FetchOutcome)
    (h : (checkWasmIntegrity fs (checkBuildArtifacts fs initResults)).info.md5Hash = none) :
    checkZkWasmImage net (checkWasmIntegrity fs (checkBuildArtifacts fs initResults)) =
      (pushError (checkWasmIntegrity fs (checkBuildArtifacts fs initResults)) noMd5Msg, 0) ∧
    (checkDeployment fs net).2 = 0 := by
  have hq : checkZkWasmImage net (checkWasmIntegrity fs (checkBuildArtifacts fs initResults)) =
      (pushError (checkWasmIntegrity fs (checkBuildArtifacts fs initResults)) noMd5Msg, 0) := by
    unfold checkZkWasmImage
    rw [h]
  exact ⟨hq, by rw [cd_snd, hq]⟩

/-- C1 witness: the empty filesystem stores no digest, and the run makes
no network call. -/
theorem C1_witness :
    checkZkWasmImage netOkNone (checkWasmIntegrity fsEmpty (checkBuildArtifacts fsEmpty initResults)) =
      (pushError (checkWasmIntegrity fsEmpty (checkBuildArtifacts fsEmpty initResults)) noMd5Msg, 0) ∧
    (checkDeployment fsEmpty netOkNone).2 = 0 :=
  C1_no_digest_means_error_and_no_network fsEmpty netOkNone (by decide)

/-- C2: the returned report has success = true exactly when its error
list is empty; any nonempty error list forces success = false. -/
theorem C2_success_iff_no_errors (fs : FS) (net : FetchOutcome) :
    (checkDeployment fs net).1.success = true ↔ (checkDeployment fs net).1.errors = [] := by
  obtain ⟨hs, _⟩ := pipeline_fields fs net
  rw [cd_fst]
  split
  case isTrue h =>
    have hne : ((checkZkWasmImage net (checkWasmIntegrity fs (checkBuildArtifacts fs initResults))).1).errors ≠ [] := by
      intro he
      rw [he] at h
      simp at h
    simp [hne]
  case isFalse h =>
    have he : ((checkZkWasmImage net (checkWasmIntegrity fs (checkBuildArtifacts fs initResults))).1).errors = [] :=
      List.length_eq_zero.mp (by omega)
    simp [hs, he]

set_option maxRecDepth 10000 in
/-- C3: for every readable artifact content, the integrity check stores
the uppercase hex MD5 of the full content in info.md5Hash and the byte
length in info.wasmSize; and the digest of the content 0x00 0x01 0x02 is
the independently computed reference value. -/
theorem C3_digest_and_size (fs : FS) (r : CheckResults) (content : List Nat)
    (hex : fs.pathExists wasmPath = true) (hrd : fs.readFile wasmPath = Except.ok content) :
    checkWasmIntegrity fs r = { r with info := { r.info with md5Hash := some (md5HexUpper content), wasmSize := some content.length } } ∧
    md5HexUpper content012 = refDigest012 :=
  ⟨cwi_ok_eq fs r content hex hrd, by decide⟩

set_option maxRecDepth 10000 in
/-- C3 witness: the concrete filesystem whose artifact holds the bytes
0x00 0x01 0x02. -/
theorem C3_witness :
    checkWasmIntegrity fsWasmOnly initResults = { initResults with info := { initResults.info with md5Hash := some (md5HexUpper content012), wasmSize := some content012.length } } ∧
    md5HexUpper content012 = refDigest012 :=
  C3_digest_and_size fsWasmOnly initResults content012 (by decide) rfl

/-- C4: when a digest was computed and the catalog returns an empty or
absent result list, the run records the image-not-found error (whose
text contains not found) and the returned report has success = false. -/
theorem C4_empty_catalog_is_error (fs : FS) (net : FetchOutcome) (content : List Nat)
    (hex : fs.pathExists wasmPath = true) (hrd : fs.readFile wasmPath = Except.ok content)
    (hnet : net = netOkNone ∨ net = netOkEmpty) :
    imageNotFoundMsg (md5HexUpper content) ∈ (checkDeployment fs net).1.errors ∧
    strContains (imageNotFoundMsg (md5HexUpper content)) notFoundText = true ∧
    (checkDeployment fs net).1.success = false := by
  have hq : queryZkWasmImage net = Except.ok none := by
    cases hnet with
    | inl h => rw [h]; rfl
    | inr h => rw [h]; rfl
  have h2 := cwi_ok_eq fs (checkBuildArtifacts fs initResults) content hex hrd
  have h3 : checkZkWasmImage net (checkWasmIntegrity fs (checkBuildArtifacts fs initResults)) =
      (pushError (checkWasmIntegrity fs (checkBuildArtifacts fs initResults)) (imageNotFoundMsg (md5HexUpper content)), 1) := by
    rw [h2]
    simp [checkZkWasmImage, hq, checksumFound]
  have hlen : ((checkZkWasmImage net (checkWasmIntegrity fs (checkBuildArtifacts fs initResults))).1).errors.length > 0 := by
    rw [h3]
    simp [pushError]
  refine ⟨?_, imageNotFoundMsg_contains (md5HexUpper content), ?_⟩
  · rw [cd_fst, if_pos hlen]
    rw [h3]
    simp [pushError]
  · rw [cd_fst, if_pos hlen]

/-- C4 witness: artifact 0x00 0x01 0x02 present, catalog result list
absent. -/
theorem C4_witness :
    imageNotFoundMsg (md5HexUpper content012) ∈ (checkDeployment fsWasmOnly netOkNone).1.errors ∧
    strContains (imageNotFoundMsg (md5HexUpper content012)) notFoundText = true ∧
    (checkDeployment fsWasmOnly netOkNone).1.success = false :=
  C4_empty_catalog_is_error fsWasmOnly netOkNone content012 (by decide) rfl (Or.inl rfl)

set_option maxRecDepth 20000 in
/-- C5 counterexample: two catalog records that differ only in their
display fields (name, circuit size) produce identical reports, and the
report's whole info value carries only digest, size, image hash and
checksum — the display fields are recorded nowhere in it. -/
theorem C5_counterexample :
    checkDeployment fsGood netFoundA = checkDeployment fsGood netFoundB ∧
    imgA.name ≠ imgB.name ∧
    imgA.circuit_size ≠ imgB.circuit_size ∧
    (checkDeployment fsGood netFoundA).1.info =
      { md5Hash := some refDigest012, wasmSize := some 3, imageHash := some refDigest012, imageChecksum := some csAbc } := by
  refine ⟨by decide, by decide, by decide, by decide⟩

/-- C5 as amended: when a digest is available and the first catalog
record has a nonempty checksum, the catalog check appends no error,
records the checksum string in info.imageChecksum and the digest in
info.imageHash, and changes nothing else (in particular the record's
display fields are not stored in the report). -/
theorem C5_found_checksum_recorded (r : CheckResults) (net : FetchOutcome)
    (img : ZkWasmImageInfo) (cs imageHash : String)
    (hmd5 : r.info.md5Hash = some imageHash)
    (hnet : queryZkWasmImage net = Except.ok (some img))
    (hcs : img.checksum = some cs) (hne : cs ≠ "") :
    checkZkWasmImage net r = ({ r with info := { r.info with imageHash := some imageHash, imageChecksum := some cs } }, 1) := by
  have hf : checksumFound (some img) = true := by
    simp [checksumFound, hcs, hne]
  simp [checkZkWasmImage, hmd5, hnet, hf, hcs]

/-- C5 witness: a report carrying a digest and a catalog record whose
checksum is abc. -/
theorem C5_witness :
    checkZkWasmImage netFoundA rMd5 = ({ rMd5 with info := { rMd5.info with imageHash := some csAbc, imageChecksum := some csAbc } }, 1) :=
  C5_found_checksum_recorded rMd5 netFoundA imgA csAbc csAbc rfl rfl rfl (by decide)

/-- C6: whenever the artifact file is absent, the integrity check
appends exactly the one error WASM file not found for integrity check
and changes nothing else; in the full run both info.md5Hash and
info.wasmSize stay unset. -/
theorem C6_missing_artifact (fs : FS) (r : CheckResults) (net : FetchOutcome)
    (h : fs.pathExists wasmPath = false) :
    checkWasmIntegrity fs r = pushError r wasmNotFoundMsg ∧
    (checkDeployment fs net).1.info.md5Hash = none ∧
    (checkDeployment fs net).1.info.wasmSize = none := by
  have h1 : ∀ (r2 : CheckResults), checkWasmIntegrity fs r2 = pushError r2 wasmNotFoundMsg := by
    intro r2
    simp [checkWasmIntegrity, h]
  obtain ⟨es1, hc⟩ := cba_shape fs initResults
  obtain ⟨hm, hw⟩ := czi_info_pres net (checkWasmIntegrity fs (checkBuildArtifacts fs initResults))
  have hinfo : (checkWasmIntegrity fs (checkBuildArtifacts fs initResults)).info = initResults.info := by
    rw [h1, hc]
    rfl
  refine ⟨h1 r, ?_, ?_⟩
  · rw [cd_fst]
    split <;> exact hm.trans (by rw [hinfo]; rfl)
  · rw [cd_fst]
    split <;> exact hw.trans (by rw [hinfo]; rfl)

/-- C6 witness: the empty filesystem. -/
theorem C6_witness :
    checkWasmIntegrity fsEmpty initResults = pushError initResults wasmNotFoundMsg ∧
    (checkDeployment fsEmpty netOkNone).1.info.md5Hash = none ∧
    (checkDeployment fsEmpty netOkNone).1.info.wasmSize = none :=
  C6_missing_artifact fsEmpty initResults netOkNone (by decide)

/-- C7 counterexample: on the filesystem where nothing exists, both
required files are missing (two missing required paths) yet the
presence check records only the single directory error, so it is not
the case that one error is recorded per missing required file. -/
theorem C7_counterexample :
    (checkBuildArtifacts fsEmpty initResults).errors = [artifactsDirMissingMsg] ∧
    (requiredFiles.filter (fun f => !(fsEmpty.pathExists (joinPath applicationDir f)))).length = 2 := by
  exact ⟨by decide, by decide⟩

/-- C7 as amended: when both the build-artifacts and the application
directories exist, the presence check appends exactly one error per
missing required file; and for every filesystem and network outcome,
checkDeployment still threads the report through the integrity and
catalog checks (its final error list is the one produced after all
three checks ran). -/
theorem C7_presence_errors_and_no_abort (fs : FS) (r : CheckResults)
    (h1 : fs.pathExists artifactsDir = true) (h2 : fs.pathExists applicationDir = true) :
    checkBuildArtifacts fs r = { r with errors := r.errors ++ missingFileErrors fs requiredFiles } ∧
    (∀ (fs2 : FS) (net2 : FetchOutcome),
      (checkDeployment fs2 net2).1.errors =
        ((checkZkWasmImage net2 (checkWasmIntegrity fs2 (checkBuildArtifacts fs2 initResults))).1).errors) := by
  constructor
  · simp [checkBuildArtifacts, h1, h2, cba_foldl_eq]
  · intro fs2 net2
    rw [cd_fst]
    split <;> rfl

/-- C7 witness: directories exist, both required files missing. -/
theorem C7_witness :
    checkBuildArtifacts fsDirsOnly initResults = { initResults with errors := initResults.errors ++ missingFileErrors fsDirsOnly requiredFiles } ∧
    (∀ (fs2 : FS) (net2 : FetchOutcome),
      (checkDeployment fs2 net2).1.errors =
        ((checkZkWasmImage net2 (checkWasmIntegrity fs2 (checkBuildArtifacts fs2 initResults))).1).errors) :=
  C7_presence_errors_and_no_abort fsDirsOnly initResults (by decide) (by decide)

/-- C8: every failure mode is converted into an appended error string
inside the check that encountered it, and none escapes: a thrown read
or hash error becomes one integrity error, a thrown or rewrapped
network, HTTP or parse error becomes one catalog error, and the
presence check only ever appends error strings; the checks and the
aggregator are total functions into CheckResults. -/
theorem C8_failures_become_error_strings (fs : FS) (net : FetchOutcome)
    (r : CheckResults) (msgR msgN : String) :
    (fs.pathExists wasmPath = true → fs.readFile wasmPath = Except.error msgR →
      checkWasmIntegrity fs r = pushError r (wasmHashFailMsg msgR)) ∧
    (∀ imageHash, r.info.md5Hash = some imageHash → queryZkWasmImage net = Except.error msgN →
      checkZkWasmImage net r = (pushError r (hubCheckFailMsg msgN), 1)) ∧
    (∃ es, checkBuildArtifacts fs r = { r with errors := r.errors ++ es }) := by
  refine ⟨?_, ?_, cba_shape fs r⟩
  · intro hex hrd
    simp [checkWasmIntegrity, hex, hrd]
  · intro imageHash hm hq
    simp [checkZkWasmImage, hm, hq]

/-- C8 witness: a read that throws and a fetch that throws, each
converted into its error string. -/
theorem C8_witness :
    checkWasmIntegrity fsReadErr initResults = pushError initResults (wasmHashFailMsg ioErrMsg) ∧
    checkZkWasmImage netThrowsDown rMd5 = (pushError rMd5 (hubCheckFailMsg (hubQueryFailMsg netErrMsg)), 1) :=
  ⟨(C8_failures_become_error_strings fsReadErr netThrowsDown initResults ioErrMsg (hubQueryFailMsg netErrMsg)).1 (by decide) rfl,
   (C8_failures_become_error_strings fsReadErr netThrowsDown rMd5 ioErrMsg (hubQueryFailMsg netErrMsg)).2.1 csAbc rfl rfl⟩

/-- C9: with the build-artifacts and application directories present
but both required files missing, the run accumulates exactly the four
errors (two missing files, no artifact for integrity, no digest for the
catalog), so the printed passed-checks count 3 minus errors is -1. -/
theorem C9_negative_passed_count :
    (checkDeployment fsDirsOnly netOkNone).1.errors =
      [requiredFileMissingMsg (joinPath applicationDir wasmFileName),
       requiredFileMissingMsg (joinPath applicationDir dtsFileName),
       wasmNotFoundMsg, noMd5Msg] ∧
    (checkDeployment fsDirsOnly netOkNone).1.errors.length = 4 ∧
    totalPassed (checkDeployment fsDirsOnly netOkNone).1 = -1 := by
  exact ⟨by decide, by decide, by decide⟩

/-- C10: no code path of any check or of the aggregator appends a
warning: the returned report's warnings list is always empty. -/
theorem C10_no_warnings (fs : FS) (net : FetchOutcome) :
    (checkDeployment fs net).1.warnings = [] := by
  have hw := (pipeline_fields fs net).2
  rw [cd_fst]
  split
  · exact hw
  · exact hw

end ZkWasmCheck
